import Mathlib

/-!
# Verification of the DigitalOcean Flocker block-device plugin

Shallow embedding of `digitalocean_flocker_plugin.py` (class
`DigitalOceanDeviceAPI`).  Strings from the Python level are modelled as
`List Char`; Python `None`/empty-list falsiness of `droplet_ids` is modelled
by the empty list; Python exceptions are modelled with `Except PyExn`.
Provider network calls are modelled by oracles passed as arguments: the
volume lookup result (`Option DOVolume`), the status an action reports after
each successive reload (`Nat → String`), and the symlink-resolution oracle
for `get_device_path`.  The code targets Python 2 (flocker is Python-2-only),
so `map` over a list yields a list.
-/

namespace DOPlugin

/-- The class constant `DigitalOceanDeviceAPI._PREFIX = "flocker-v1-"`. -/
def _PREFIX : List Char := "flocker-v1-".data

/-- The property `volume_description`: the cluster stamp
`"flocker-v1-cluster-id: " + cluster_id`. -/
def volume_description (cluster_id : List Char) : List Char :=
  "flocker-v1-cluster-id: ".data ++ cluster_id

/-- Lower-case hex digit for a value `< 16`, as produced by Python's
`%x` formatting used by `uuid.UUID.hex`. -/
def hexChar (n : Nat) : Char :=
  if n < 10 then Char.ofNat (48 + n) else Char.ofNat (87 + n)

/-- The `d`-digit lower-case hex rendering of `v` (most significant digit
first): `uuid.UUID.hex` is exactly `toHexDigits 32 v` for `v < 2^128`. -/
def toHexDigits : Nat → Nat → List Char
  | 0, _ => []
  | d + 1, v => toHexDigits d (v / 16) ++ [hexChar (v % 16)]

/-- Value of a hex digit character, upper or lower case, as accepted by
Python's `int(s, 16)`. -/
def hexVal (c : Char) : Option Nat :=
  if 48 ≤ c.toNat ∧ c.toNat ≤ 57 then some (c.toNat - 48)
  else if 97 ≤ c.toNat ∧ c.toNat ≤ 102 then some (c.toNat - 87)
  else if 65 ≤ c.toNat ∧ c.toNat ≤ 70 then some (c.toNat - 55)
  else none

/-- Parse a hex digit string into a number (`int(s, 16)`), `none` when a
character is not a hex digit. -/
def parseHex (cs : List Char) : Option Nat :=
  cs.foldl (fun acc c =>
    match acc, hexVal c with
    | some a, some v => some (a * 16 + v)
    | _, _ => none) (some 0)

/-- Modelled from the Python stdlib `uuid.UUID(hex=...)` constructor, which
the plugin calls in `_unmangle_dataset` and whose code is not part of this
repository: hyphens are removed and the rest must be exactly 32 hex digits,
yielding the 128-bit integer value.  The constructor's additional stripping
of `urn:`/`uuid:` markers and surrounding braces is not modelled; it only
affects names containing those substrings, which no claim concerns. -/
def pyUUID (s : List Char) : Option Nat :=
  let t := s.filter (fun c => c ≠ '-')
  if t.length = 32 then parseHex t else none

/-- Result of `_unmangle_dataset`: a decoded dataset UUID, the `None`
("not our naming convention") result, or a raised `ValueError` from the
`UUID` constructor. -/
inductive UnmangleResult where
  | notOurs : UnmangleResult
  | ok : Nat → UnmangleResult
  | error : UnmangleResult
deriving DecidableEq, Repr

/-- Method `_unmangle_dataset(vol_name)`: if the name is non-empty (Python
truthiness of the string) and starts with `_PREFIX`, parse the remainder as
a UUID (which may raise); otherwise return `None`. -/
def _unmangle_dataset (vol_name : List Char) : UnmangleResult :=
  if vol_name ≠ [] ∧ _PREFIX.isPrefixOf vol_name then
    match pyUUID (vol_name.drop _PREFIX.length) with
    | some u => .ok u
    | none => .error
  else .notOurs

/-- Method `_mangle_dataset(dataset_id)`: `_PREFIX + dataset_id.hex`. -/
def _mangle_dataset (dataset_id : Nat) : List Char :=
  _PREFIX ++ toHexDigits 32 dataset_id

/-- A `digitalocean.Volume` as seen by the plugin: the fields it reads.
`droplet_ids = None` and `droplet_ids = []` are both falsy in Python and are
both modelled by `[]`; a droplet id is kept as the text the plugin converts
it to. `region` holds the region slug. -/
structure DOVolume where
  id : List Char
  name : List Char
  description : List Char
  size_gigabytes : Nat
  droplet_ids : List (List Char)
  region : List Char
deriving DecidableEq, Repr

/-- The record `flocker.node.agents.blockdevice.BlockDeviceVolume`, with the fields the
plugin sets in `_to_block_device_volume`. -/
structure BlockDeviceVolume where
  blockdevice_id : List Char
  size : Nat
  attached_to : Option (List Char)
  dataset_id : Option Nat
deriving DecidableEq, Repr

/-- Exceptions the embedded operations can raise.  `DOTimeout` is
`DOException` with message `Wait timeout`, `DOActionFailed s` is
`DOException` with message `Action failed (s)`, `ValueError` is the error raised by the
stdlib `UUID` constructor on an undecodable name. -/
inductive PyExn where
  | UnknownVolume : List Char → PyExn
  | AlreadyAttachedVolume : List Char → PyExn
  | UnattachedVolume : List Char → PyExn
  | DOTimeout : PyExn
  | DOActionFailed : String → PyExn
  | ValueError : PyExn
deriving DecidableEq, Repr

/-- Method `_to_block_device_volume(do_volume)`: size is GiB → bytes
(`int(GiB(n).to_Byte().value) = n * 2^30`), `attached_to` is the first
droplet id when the list is non-empty, `dataset_id` the unmangled name.
A `ValueError` from the `UUID` constructor propagates. -/
def _to_block_device_volume (v : DOVolume) : Except PyExn BlockDeviceVolume :=
  match _unmangle_dataset v.name with
  | .error => .error .ValueError
  | .notOurs =>
      .ok ⟨v.id, v.size_gigabytes * 1073741824, v.droplet_ids.head?, none⟩
  | .ok u =>
      .ok ⟨v.id, v.size_gigabytes * 1073741824, v.droplet_ids.head?, some u⟩

/-- The `result_dict` threaded through `_categorize_do_volume`. -/
structure CatDict where
  ignored : List DOVolume
  wrong_cluster : List DOVolume
  okay : List DOVolume
deriving DecidableEq, Repr

/-- Method `_categorize_do_volume(self, result_dict, vol)`: sort a volume into
exactly one of the three slots (`list.append` is modelled by `++ [vol]`). -/
def _categorize_do_volume (cluster_id : List Char) (d : CatDict)
    (vol : DOVolume) : CatDict :=
  if ¬ _PREFIX.isPrefixOf vol.name then
    { d with ignored := d.ignored ++ [vol] }
  else if vol.description ≠ volume_description cluster_id then
    { d with wrong_cluster := d.wrong_cluster ++ [vol] }
  else
    { d with okay := d.okay ++ [vol] }

/-- Method `list_volumes()`: categorize every provider volume, convert the `okay`
ones (in Python 2, `map` over a list is a list; a `ValueError` raised while
converting propagates). -/
def list_volumes (cluster_id : List Char) (vols : List DOVolume) :
    Except PyExn (List BlockDeviceVolume) :=
  let res := vols.foldl (_categorize_do_volume cluster_id) ⟨[], [], []⟩
  res.okay.mapM _to_block_device_volume

/-! ## The action waiter

The waiter polls an action; the status the action reports after its `j`-th
reload is given by an oracle `statusAt : Nat → String` (`statusAt 0` is the
status the action was fetched with).  The constructor sets `_poll = 1` and
`_timeout = 60`; the scheduler sleep of `delta = max(0, min(_poll,
_timeout - elapsed))` is the only passage of time modelled, so one loop
iteration advances the clock by 1 while `elapsed < _timeout`.  `awaitLoop`
carries `remaining = _timeout - elapsed` and the iteration counter `i`;
`_should_wait_on` (status is `in-progress` and the deadline has not
elapsed) is inlined as the loop condition. -/

/-- Outcome of the polling loop of `_await_action`: the final status with
the iteration count at which the loop stopped. -/
inductive WaitResult where
  | success : Nat → WaitResult
  | timedOut : Nat → WaitResult
  | failed : String → Nat → WaitResult
deriving DecidableEq, Repr

/-- The `while self._should_wait_on(action, started_at)` loop. -/
def awaitLoop (statusAt : Nat → String) : Nat → Nat → WaitResult
  | remaining, i =>
    if statusAt i = "in-progress" then
      match remaining with
      | r + 1 => awaitLoop statusAt r (i + 1)
      | 0 => .timedOut i
    else if statusAt i = "completed" then .success i
    else .failed (statusAt i) i

/-- The constructor's `self._timeout`. -/
def _timeout : Nat := 60

/-- What `_await_action` did: returned `False` (no action), returned `True`
before entering the loop, or returned `True` after logging the iteration
count. -/
inductive AwaitReturn where
  | noAction : AwaitReturn
  | immediate : AwaitReturn
  | completed : Nat → AwaitReturn
deriving DecidableEq, Repr

/-- Method `_await_action(action)`: early `True` on an already-completed action,
`False` when there is no action, else run the poll loop; a timeout raises
`DOException` with message `Wait timeout`, any other non-success terminal status raises
`DOException` with message `Action failed (status)`. -/
def _await_action (action : Option (Nat → String)) : Except PyExn AwaitReturn :=
  match action with
  | none => .ok .noAction
  | some statusAt =>
    if statusAt 0 = "completed" then .ok .immediate
    else
      match awaitLoop statusAt _timeout 0 with
      | .success i => .ok (.completed i)
      | .timedOut _ => .error .DOTimeout
      | .failed s _ => .error (.DOActionFailed s)

/-- Method `_await_action_id(action_id)`: fetches the action (modelled by handing
the status oracle directly) and calls `_await_action`; the body has no
`return` statement, so on normal termination it returns Python `None` —
never the `True`/`False` that `_await_action` produced. -/
def _await_action_id (statusAt : Nat → String) : Except PyExn (Option Bool) :=
  match _await_action (some statusAt) with
  | .error e => .error e
  | .ok _ => .ok none

/-- Python truthiness of an `Option Bool` value (`None` is falsy). -/
def pyTruthy : Option Bool → Bool
  | none => false
  | some b => b

/-- Provider mutation calls an operation can issue, recorded as a trace. -/
inductive Call where
  | attach : List Char → List Char → Call
  | detach : List Char → List Char → Call
  | destroy : List Char → Call
deriving DecidableEq, Repr

/-- Method `attach_volume(blockdevice_id, attach_to)`.  Here `lookup` is the result of
`get_volume` (`none` models the provider's `NotFoundError`, which the code
turns into `UnknownVolume`); `statusAt` the status oracle of the attach
action.  Because `_await_action_id` returns `None`, the
`vol.droplet_ids = [attach_to]` update is guarded by a falsy value. -/
def attach_volume (lookup : Option DOVolume)
    (blockdevice_id attach_to : List Char) (statusAt : Nat → String) :
    Except PyExn BlockDeviceVolume × List Call :=
  match lookup with
  | none => (.error (.UnknownVolume blockdevice_id), [])
  | some vol =>
    if vol.droplet_ids ≠ [] then
      (.error (.AlreadyAttachedVolume blockdevice_id), [])
    else
      match _await_action_id statusAt with
      | .error e => (.error e, [.attach vol.id attach_to])
      | .ok r =>
        let vol2 := if pyTruthy r then
            { vol with droplet_ids := [attach_to] } else vol
        match _to_block_device_volume vol2 with
        | .ok bd => (.ok bd, [.attach vol.id attach_to])
        | .error e => (.error e, [.attach vol.id attach_to])

/-- Method `detach_volume(blockdevice_id)`: `UnattachedVolume` when `droplet_ids`
is falsy, else detach from `droplet_ids[0]` and wait; the
`vol.droplet_ids = None` update is guarded by the falsy `None` that
`_await_action_id` returns. -/
def detach_volume (lookup : Option DOVolume) (blockdevice_id : List Char)
    (statusAt : Nat → String) :
    Except PyExn BlockDeviceVolume × List Call :=
  match lookup with
  | none => (.error (.UnknownVolume blockdevice_id), [])
  | some vol =>
    match vol.droplet_ids with
    | [] => (.error (.UnattachedVolume blockdevice_id), [])
    | detach_from :: _ =>
      match _await_action_id statusAt with
      | .error e => (.error e, [.detach vol.id detach_from])
      | .ok r =>
        let vol2 := if pyTruthy r then
            { vol with droplet_ids := [] } else vol
        match _to_block_device_volume vol2 with
        | .ok bd => (.ok bd, [.detach vol.id detach_from])
        | .error e => (.error e, [.detach vol.id detach_from])

/-- Method `destroy_volume(blockdevice_id)`: when the volume is attached, issue a
detach and wait on its action with `_await_action_id`; only `NotFoundError`
is caught, so a `DOException` raised by the wait propagates and
`vol.destroy()` is not reached. -/
def destroy_volume (lookup : Option DOVolume) (blockdevice_id : List Char)
    (statusAt : Nat → String) : Except PyExn Unit × List Call :=
  match lookup with
  | none => (.error (.UnknownVolume blockdevice_id), [])
  | some vol =>
    match vol.droplet_ids with
    | [] => (.ok (), [.destroy vol.id])
    | d :: _ =>
      match _await_action_id statusAt with
      | .error e => (.error e, [.detach vol.id d])
      | .ok _ => (.ok (), [.detach vol.id d, .destroy vol.id])

/-- The fixed device-path format string of `get_device_path`. -/
def devPathFor (name : List Char) : List Char :=
  "/dev/disk/by-id/scsi-0DO_Volume_".data ++ name

/-- Method `get_device_path(blockdevice_id)`: `UnknownVolume` on not-found,
`UnattachedVolume` when `droplet_ids` is falsy, else `path.realpath()`
with a bare `except` falling back to the unresolved path.  `resolve` is the
filesystem oracle: `none` models `realpath` raising any exception. -/
def get_device_path (lookup : Option DOVolume) (blockdevice_id : List Char)
    (resolve : List Char → Option (List Char)) : Except PyExn (List Char) :=
  match lookup with
  | none => .error (.UnknownVolume blockdevice_id)
  | some vol =>
    let path := devPathFor vol.name
    if vol.droplet_ids = [] then .error (.UnattachedVolume blockdevice_id)
    else
      match resolve path with
      | some p => .ok p
      | none => .ok path

/-! ## Sample data

Concrete volumes used to instantiate the theorems; they mirror the mock
data of the repository's unit tests. -/

/-- A sample cluster id. -/
def sampleCluster : List Char := "fe6e6135-8fa7-4a97-a973-c1a1c4b9d7a0".data

/-- Mock volume `1234`: owned, attached to droplet `42`, 100 GiB. -/
def vol1234 : DOVolume :=
  ⟨"1234".data, "flocker-v1-0ff663594f6347c8a950ff5de6f6225e".data,
   volume_description sampleCluster, 100, ["42".data], "oxia-planum".data⟩

/-- Mock volume `1235`: owned, unattached, 50 GiB. -/
def vol1235 : DOVolume :=
  ⟨"1235".data, "flocker-v1-55eacb0e962c4c60911fb43d34ec3f85".data,
   volume_description sampleCluster, 50, [], "oxia-planum".data⟩

/-- Mock volume `1236`: a foreign volume (name without the prefix). -/
def vol1236 : DOVolume :=
  ⟨"1236".data, "custom-volume".data, volume_description sampleCluster, 10,
   [], "oxia-planum".data⟩

/-- Mock volume `1237`: prefixed name but another cluster's description. -/
def vol1237 : DOVolume :=
  ⟨"1237".data, "flocker-v1-bd4c3b59-6fc3-4f75-a8e6-9f314404f6a6".data,
   "this-is-not-a-cluster-volume".data, 10, [], "oxia-planum".data⟩

/-! ## Lemmas about the hex codec -/

theorem hexVal_hexChar : ∀ m, m < 16 → hexVal (hexChar m) = some m := by
  decide

theorem hexChar_ne_dash : ∀ m, m < 16 → hexChar m ≠ '-' := by
  decide

theorem toHexDigits_length (d : Nat) : ∀ v, (toHexDigits d v).length = d := by
  induction d with
  | zero => intro v; rfl
  | succ d ih => intro v; simp [toHexDigits, ih]

theorem toHexDigits_mem (d : Nat) :
    ∀ v c, c ∈ toHexDigits d v → c ≠ '-' := by
  induction d with
  | zero => intro v c hc; simp [toHexDigits] at hc
  | succ d ih =>
    intro v c hc
    rw [toHexDigits, List.mem_append, List.mem_singleton] at hc
    rcases hc with h | h
    · exact ih _ _ h
    · subst h; exact hexChar_ne_dash _ (Nat.mod_lt _ (by norm_num))

theorem filter_toHexDigits (d v : Nat) :
    (toHexDigits d v).filter (fun c => !decide (c = '-')) = toHexDigits d v := by
  apply List.filter_eq_self.mpr
  intro c hc
  simp [toHexDigits_mem d v c hc]

theorem parseHex_go (d : Nat) : ∀ v a, v < 16 ^ d →
    List.foldl (fun acc c =>
      match acc, hexVal c with
      | some x, some w => some (x * 16 + w)
      | _, _ => none) (some a) (toHexDigits d v) = some (a * 16 ^ d + v) := by
  induction d with
  | zero =>
    intro v a hv
    interval_cases v
    simp [toHexDigits]
  | succ d ih =>
    intro v a hv
    rw [toHexDigits, List.foldl_append]
    have h16 : v / 16 < 16 ^ d := by
      rw [Nat.div_lt_iff_lt_mul (by norm_num)]
      calc v < 16 ^ (d + 1) := hv
        _ = 16 ^ d * 16 := by ring
    rw [ih (v / 16) a h16]
    simp only [List.foldl_cons, List.foldl_nil,
      hexVal_hexChar (v % 16) (Nat.mod_lt _ (by norm_num))]
    congr 1
    rw [pow_succ]
    calc (a * 16 ^ d + v / 16) * 16 + v % 16
        = a * (16 ^ d * 16) + (v / 16 * 16 + v % 16) := by ring
      _ = a * (16 ^ d * 16) + v := by congr 1; omega

theorem parseHex_toHexDigits (v : Nat) (hv : v < 16 ^ 32) :
    parseHex (toHexDigits 32 v) = some v := by
  simpa [parseHex] using parseHex_go 32 v 0 hv

/-! ## Claim theorems -/

/-- C5: for every valid UUID `x` (a 128-bit value), decoding the encoded
volume name returns `x` unchanged: `unmangle(mangle(x)) == x`. -/
theorem unmangle_mangle_roundtrip (x : Nat) (hx : x < 2 ^ 128) :
    _unmangle_dataset (_mangle_dataset x) = UnmangleResult.ok x := by
  have hx' : x < 16 ^ 32 := by norm_num at hx ⊢; exact hx
  unfold _unmangle_dataset _mangle_dataset
  rw [if_pos, List.drop_left]
  · simp [pyUUID, filter_toHexDigits, toHexDigits_length,
      parseHex_toHexDigits x hx']
  · refine ⟨by simp [_PREFIX], ?_⟩
    rw [List.isPrefixOf_iff_prefix]
    exact List.prefix_append _ _

/-- Witness for C5 at the dataset UUID
`0ff66359-4f63-47c8-a950-ff5de6f6225e` from the repository's tests. -/
theorem unmangle_mangle_roundtrip_witness :
    (0x0ff663594f6347c8a950ff5de6f6225e : Nat) < 2 ^ 128 ∧
    _unmangle_dataset (_mangle_dataset 0x0ff663594f6347c8a950ff5de6f6225e) =
      UnmangleResult.ok 0x0ff663594f6347c8a950ff5de6f6225e :=
  ⟨by norm_num, unmangle_mangle_roundtrip _ (by norm_num)⟩

/-- C10: for every volume name that starts with the codec prefix but whose
remaining characters do not form a valid UUID string, `_unmangle_dataset`
raises the `UUID` constructor's `ValueError` instead of returning the
"not our convention" `None` result: it is not total over prefix-matching
names. -/
theorem unmangle_invalid_uuid_raises (name : List Char)
    (hpre : _PREFIX.isPrefixOf name = true)
    (hbad : pyUUID (name.drop _PREFIX.length) = none) :
    _unmangle_dataset name = UnmangleResult.error := by
  have hne : name ≠ [] := by
    intro h
    subst h
    exact absurd hpre (by decide)
  unfold _unmangle_dataset
  rw [if_pos ⟨hne, hpre⟩, hbad]

/-- Witness for C10 at the prefix-matching name `flocker-v1-zzz`. -/
theorem unmangle_invalid_uuid_raises_witness :
    _PREFIX.isPrefixOf "flocker-v1-zzz".data = true ∧
    pyUUID (("flocker-v1-zzz".data).drop _PREFIX.length) = none ∧
    _unmangle_dataset "flocker-v1-zzz".data = UnmangleResult.error :=
  ⟨by decide, by decide, unmangle_invalid_uuid_raises _ (by decide) (by decide)⟩

/-! ## Lemmas about the action waiter -/

theorem awaitLoop_reach (statusAt : Nat → String) (k : Nat)
    (hk : statusAt k ≠ "in-progress")
    (hin : ∀ j, j < k → statusAt j = "in-progress") :
    ∀ r i, i ≤ k → k ≤ i + r →
      awaitLoop statusAt r i =
        if statusAt k = "completed" then WaitResult.success k
        else WaitResult.failed (statusAt k) k := by
  intro r
  induction r with
  | zero =>
    intro i hik hki
    have : i = k := by omega
    subst this
    simp [awaitLoop, hk]
  | succ r ih =>
    intro i hik hki
    rcases Nat.lt_or_ge i k with h | h
    · rw [awaitLoop, if_pos (hin i h)]
      exact ih (i + 1) (by omega) (by omega)
    · have : i = k := by omega
      subst this
      simp [awaitLoop, hk]

theorem awaitLoop_timedOut (statusAt : Nat → String) :
    ∀ r i, (∀ j, j ≤ i + r → statusAt j = "in-progress") →
      awaitLoop statusAt r i = WaitResult.timedOut (i + r) := by
  intro r
  induction r with
  | zero =>
    intro i h
    rw [awaitLoop, if_pos (h i (by omega))]
    simp
  | succ r ih =>
    intro i h
    rw [awaitLoop, if_pos (h i (by omega))]
    show awaitLoop statusAt r (i + 1) = _
    rw [ih (i + 1) (fun j hj => h j (by omega))]
    congr 1
    omega

theorem await_action_some (statusAt : Nat → String) :
    _await_action (some statusAt) =
      if statusAt 0 = "completed" then .ok .immediate
      else
        match awaitLoop statusAt _timeout 0 with
        | .success i => .ok (.completed i)
        | .timedOut _ => .error .DOTimeout
        | .failed s _ => .error (.DOActionFailed s) := rfl

/-- C3: classification of the waiter's outcomes.  (1) A handle observed
`in-progress` for `k` polls (`1 ≤ k ≤ _timeout`, i.e. completion within the
deadline) and then `completed` makes `_await_action` succeed reporting
exactly `k` iterations; (2) a handle that stays `in-progress` through the
deadline raises the timeout `DOException`; (3) a handle that reports a
terminal non-success status `s` raises the action-failed `DOException`
carrying `s`. -/
theorem await_action_classification (statusAt : Nat → String) :
    (∀ k, 1 ≤ k → k ≤ _timeout →
      (∀ j, j < k → statusAt j = "in-progress") →
      statusAt k = "completed" →
      _await_action (some statusAt) = .ok (.completed k))
    ∧ ((∀ j, j ≤ _timeout → statusAt j = "in-progress") →
      _await_action (some statusAt) = .error .DOTimeout)
    ∧ (∀ k s, k ≤ _timeout →
      (∀ j, j < k → statusAt j = "in-progress") →
      statusAt k = s → s ≠ "in-progress" → s ≠ "completed" →
      _await_action (some statusAt) = .error (.DOActionFailed s)) := by
  refine ⟨?_, ?_, ?_⟩
  · intro k h1 hk hin hc
    rw [await_action_some]
    rw [if_neg (by rw [hin 0 (by omega)]; decide)]
    rw [awaitLoop_reach statusAt k (by rw [hc]; decide) hin _timeout 0
      (by omega) (by omega)]
    rw [if_pos hc]
  · intro h
    rw [await_action_some]
    rw [if_neg (by rw [h 0 (by omega)]; decide)]
    rw [awaitLoop_timedOut statusAt _timeout 0 (fun j hj => h j (by omega))]
  · intro k s hk hin heq hs1 hs2
    subst heq
    rw [await_action_some]
    rw [if_neg ?hne]
    case hne =>
      rcases Nat.eq_zero_or_pos k with h0 | h0
      · rw [← h0]; exact hs2
      · rw [hin 0 h0]; decide
    rw [awaitLoop_reach statusAt k hs1 hin _timeout 0 (by omega) (by omega)]
    rw [if_neg hs2]

/-- Witness for C3: completion after two polls, a never-completing handle,
and a handle that errors after one poll. -/
theorem await_action_classification_witness :
    _await_action (some fun j => if j < 2 then "in-progress" else "completed")
      = .ok (.completed 2)
    ∧ _await_action (some fun _ => "in-progress") = .error .DOTimeout
    ∧ _await_action (some fun j => if j < 1 then "in-progress" else "errored")
      = .error (.DOActionFailed "errored") :=
  ⟨(await_action_classification _).1 2 (by decide) (by decide) (by decide)
      (by decide),
   (await_action_classification _).2.1 (by decide),
   (await_action_classification _).2.2 1 "errored" (by decide) (by decide)
      (by decide) (by decide) (by decide)⟩

/-- C4: the ownership classifier assigns every volume to exactly one of the
three disjoint slots: no codec prefix → `ignored` (foreign), regardless of
the description; prefix but a description different from this cluster's
stamp → `wrong_cluster`; otherwise → `okay` (owned).  In each case only the
named slot receives the volume and the other two are left unchanged. -/
theorem categorize_trichotomy (cluster_id : List Char) (d : CatDict)
    (v : DOVolume) :
    (¬ _PREFIX.isPrefixOf v.name →
      _categorize_do_volume cluster_id d v =
        { d with ignored := d.ignored ++ [v] })
    ∧ (_PREFIX.isPrefixOf v.name →
      v.description ≠ volume_description cluster_id →
      _categorize_do_volume cluster_id d v =
        { d with wrong_cluster := d.wrong_cluster ++ [v] })
    ∧ (_PREFIX.isPrefixOf v.name →
      v.description = volume_description cluster_id →
      _categorize_do_volume cluster_id d v =
        { d with okay := d.okay ++ [v] }) := by
  refine ⟨?_, ?_, ?_⟩
  · intro h
    simp [_categorize_do_volume, h]
  · intro h1 h2
    simp [_categorize_do_volume, h1, h2]
  · intro h1 h2
    simp [_categorize_do_volume, h1, h2]

/-- Witness for C4 on the three sample volumes. -/
theorem categorize_trichotomy_witness :
    _categorize_do_volume sampleCluster ⟨[], [], []⟩ vol1236 =
      ⟨[vol1236], [], []⟩
    ∧ _categorize_do_volume sampleCluster ⟨[], [], []⟩ vol1237 =
      ⟨[], [vol1237], []⟩
    ∧ _categorize_do_volume sampleCluster ⟨[], [], []⟩ vol1234 =
      ⟨[], [], [vol1234]⟩ :=
  ⟨(categorize_trichotomy sampleCluster ⟨[], [], []⟩ vol1236).1 (by decide),
   (categorize_trichotomy sampleCluster ⟨[], [], []⟩ vol1237).2.1 (by decide)
     (by decide),
   (categorize_trichotomy sampleCluster ⟨[], [], []⟩ vol1234).2.2 (by decide)
     (by decide)⟩

/-- C6: over a snapshot with one owned, one foreign and one wrong-cluster
volume, `list_volumes` returns exactly the owned volume, with the size in
bytes (`GiB * 2^30`), the attachment target (`none` when unattached, the
first droplet id otherwise) and the dataset UUID decoded from the name. -/
theorem list_volumes_returns_owned_only (cluster_id : List Char)
    (vo vf vw : DOVolume) (u : Nat)
    (ho1 : _PREFIX.isPrefixOf vo.name = true)
    (ho2 : vo.description = volume_description cluster_id)
    (hou : _unmangle_dataset vo.name = UnmangleResult.ok u)
    (hf : ¬ _PREFIX.isPrefixOf vf.name = true)
    (hw1 : _PREFIX.isPrefixOf vw.name = true)
    (hw2 : vw.description ≠ volume_description cluster_id) :
    list_volumes cluster_id [vo, vf, vw] =
      .ok [⟨vo.id, vo.size_gigabytes * 1073741824,
            vo.droplet_ids.head?, some u⟩] := by
  unfold list_volumes
  simp only [List.foldl_cons, List.foldl_nil]
  simp [_categorize_do_volume, ho1, ho2, hf, hw1, hw2,
    _to_block_device_volume, hou, List.mapM.loop]

/-- Witness for C6 on the sample volumes (owned `1234`, foreign `1236`,
wrong-cluster `1237`). -/
theorem list_volumes_returns_owned_only_witness :
    list_volumes sampleCluster [vol1234, vol1236, vol1237] =
      .ok [⟨"1234".data, 107374182400, some "42".data,
            some 0x0ff663594f6347c8a950ff5de6f6225e⟩] :=
  list_volumes_returns_owned_only sampleCluster vol1234 vol1236 vol1237
    0x0ff663594f6347c8a950ff5de6f6225e (by decide) (by decide) (by decide)
    (by decide) (by decide) (by decide)

/-- C7: attaching a volume whose attachment list is non-empty raises
`AlreadyAttachedVolume` and issues no provider mutation call (the trace of
issued calls is empty, so the provider state is untouched). -/
theorem attach_already_attached_no_mutation (vol : DOVolume)
    (blockdevice_id attach_to : List Char) (statusAt : Nat → String)
    (h : vol.droplet_ids ≠ []) :
    attach_volume (some vol) blockdevice_id attach_to statusAt =
      (.error (.AlreadyAttachedVolume blockdevice_id), []) := by
  simp [attach_volume, h]

/-- Witness for C7: volume `1234` is attached to droplet `42`. -/
theorem attach_already_attached_no_mutation_witness :
    attach_volume (some vol1234) "1234".data "43".data
        (fun _ => "completed") =
      (.error (.AlreadyAttachedVolume "1234".data), []) :=
  attach_already_attached_no_mutation vol1234 "1234".data "43".data
    (fun _ => "completed") (by decide)

/-- Counterexample to C8 as stated: destroying the attached volume `1234`
while the detach action never leaves `in-progress` raises the timeout
`DOException` — the destroy call is never issued (the trace holds only the
detach), because `destroy_volume` catches only `NotFoundError`. -/
theorem destroy_wait_failure_skips_destroy_cex :
    destroy_volume (some vol1234) "1234".data (fun _ => "in-progress") =
      (.error .DOTimeout, [.detach "1234".data "42".data]) := by
  rfl

/-- C8 amended: for an attached volume, `destroy_volume` first issues a
detach and waits on its action; if the wait raises (timeout or action
failure) the exception propagates and the destroy call is NOT issued — the
destroy call is issued only when the wait returns normally. -/
theorem destroy_attached_detach_first (vol : DOVolume)
    (blockdevice_id : List Char) (statusAt : Nat → String)
    (d : List Char) (rest : List (List Char))
    (hatt : vol.droplet_ids = d :: rest) :
    (∀ e, _await_action_id statusAt = .error e →
      destroy_volume (some vol) blockdevice_id statusAt =
        (.error e, [.detach vol.id d]))
    ∧ (∀ r, _await_action_id statusAt = .ok r →
      destroy_volume (some vol) blockdevice_id statusAt =
        (.ok (), [.detach vol.id d, .destroy vol.id])) := by
  constructor
  · intro e he
    simp [destroy_volume, hatt, he]
  · intro r hr
    simp [destroy_volume, hatt, hr]

/-- Witness for the amended C8 on volume `1234`, once with a stuck detach
action and once with a completing one. -/
theorem destroy_attached_detach_first_witness :
    destroy_volume (some vol1234) "1234".data (fun _ => "in-progress") =
      (.error .DOTimeout, [.detach "1234".data "42".data])
    ∧ destroy_volume (some vol1234) "1234".data (fun _ => "completed") =
      (.ok (), [.detach "1234".data "42".data, .destroy "1234".data]) :=
  ⟨(destroy_attached_detach_first vol1234 "1234".data
      (fun _ => "in-progress") "42".data [] rfl).1 .DOTimeout rfl,
   (destroy_attached_detach_first vol1234 "1234".data
      (fun _ => "completed") "42".data [] rfl).2 none rfl⟩

/-- C9: for an attached volume that exists at the provider,
`get_device_path` returns the predicted path (the fixed `/dev/disk/by-id/`
prefix concatenated with the provider volume name) with best-effort symlink
resolution: when resolution fails the unresolved predicted path itself is
returned, and in both cases the call succeeds — a resolution error is never
propagated. -/
theorem get_device_path_best_effort (vol : DOVolume)
    (blockdevice_id : List Char) (resolve : List Char → Option (List Char))
    (hatt : vol.droplet_ids ≠ []) :
    (resolve (devPathFor vol.name) = none →
      get_device_path (some vol) blockdevice_id resolve =
        .ok (devPathFor vol.name))
    ∧ (∀ p, resolve (devPathFor vol.name) = some p →
      get_device_path (some vol) blockdevice_id resolve = .ok p) := by
  constructor
  · intro h
    simp [get_device_path, hatt, h]
  · intro p h
    simp [get_device_path, hatt, h]

/-- Witness for C9 on volume `1234`, once with failing resolution and once
with a resolving symlink. -/
theorem get_device_path_best_effort_witness :
    get_device_path (some vol1234) "1234".data (fun _ => none) =
      .ok (devPathFor vol1234.name)
    ∧ get_device_path (some vol1234) "1234".data
        (fun _ => some "/dev/sda".data) =
      .ok "/dev/sda".data :=
  ⟨(get_device_path_best_effort vol1234 "1234".data (fun _ => none)
      (by decide)).1 rfl,
   (get_device_path_best_effort vol1234 "1234".data
      (fun _ => some "/dev/sda".data) (by decide)).2 "/dev/sda".data rfl⟩

/-- C1 (code bug): attaching the unattached volume `1235` to droplet `42`
with the attach action completing successfully returns a record whose
`attached_to` is `none`, not the requested droplet: `_await_action_id` has
no `return` statement, so the guarded `vol.droplet_ids = [attach_to]`
update is never executed. -/
theorem attach_returns_stale_attachment :
    (attach_volume (some vol1235) "1235".data "42".data
        (fun _ => "completed")).1 =
      .ok ⟨"1235".data, 53687091200, none,
        some 0x55eacb0e962c4c60911fb43d34ec3f85⟩ := by
  rfl

/-- C2 (code bug): detaching volume `1234` (attached to droplet `42`) with
the detach action completing successfully returns a record whose
`attached_to` is still `42` instead of absent: `_await_action_id` returns
`None`, so the guarded `vol.droplet_ids = None` update is never executed. -/
theorem detach_returns_stale_attachment :
    (detach_volume (some vol1234) "1234".data (fun _ => "completed")).1 =
      .ok ⟨"1234".data, 107374182400, some "42".data,
        some 0x0ff663594f6347c8a950ff5de6f6225e⟩ := by
  rfl

end DOPlugin
